import Mathlib

/-!
Verification of the federation coordinator (`fed_mgr.c`) of the slurm
controller: shallow embedding of its data model and operations, and proofs
of the specification's claims about them.

Machine integers are embedded as `Nat`/`Int` with explicit reduction
modulo `2 ^ 32` where 32-bit overflow matters.  C strings are `String`
when the code never passes `NULL` for them and `Option String` when the
code checks for `NULL` (e.g. `control_host`).  Return codes are `Int`
(`SLURM_ERROR` is negative).
-/

set_option linter.unusedVariables false

namespace FedMgr

/-! ## Return codes and constants -/

def SLURM_SUCCESS : Int := 0

def SLURM_ERROR : Int := -1

/-- `EFAULT` from `errno.h`: the code returned by `fed_mgr_state_load` on a
version mismatch. -/
def EFAULT : Int := 14

/-- `EINTR` from `errno.h`: interrupted system call. -/
def EINTR : Nat := 4

/-- Modelled from the spec: numeric value of `SLURM_PROTOCOL_VERSION` from
the missing `slurm_protocol_common.h` header.  Only the facts
`SLURM_MIN_PROTOCOL_VERSION ≤ SLURM_PROTOCOL_VERSION < 2 ^ 16` matter. -/
def SLURM_PROTOCOL_VERSION : Nat := 8192

/-- Modelled from the spec: numeric value of `SLURM_MIN_PROTOCOL_VERSION`
from the missing protocol header. -/
def SLURM_MIN_PROTOCOL_VERSION : Nat := 7936

/-- `#define FED_MGR_CLUSTER_ID_BEGIN 26` from `fed_mgr.c`. -/
def FED_MGR_CLUSTER_ID_BEGIN : Nat := 26

/-- Modelled from the spec: `MAX_JOB_ID` from the missing `slurm.h` header;
the spec gives `extractLocalId(id) = id & ((1<<26)-1)` and the code comment
says bits 0-25 hold the local job id. -/
def MAX_JOB_ID : Nat := 2 ^ 26 - 1

/-- Modulus of 32-bit unsigned arithmetic. -/
def UINT32_MOD : Nat := 2 ^ 32

/-! ## Federated job id codec (`fed_mgr_get_job_id` and friends)

The three functions are pure bit-packing over `uint32_t`.  The federation
id is the global `fed_mgr_fed_info.id`; the embedding passes it as the
`fedId` argument. -/

/-- `fed_mgr_get_job_id(orig)`: `orig + (fed_mgr_fed_info.id <<
FED_MGR_CLUSTER_ID_BEGIN)` over `uint32_t`; both the shift and the sum wrap
modulo `2 ^ 32`. -/
def fed_mgr_get_job_id (fedId orig : Nat) : Nat :=
  (orig + (fedId <<< FED_MGR_CLUSTER_ID_BEGIN) % UINT32_MOD) % UINT32_MOD

/-- `fed_mgr_get_local_id(id)`: `id & MAX_JOB_ID`. -/
def fed_mgr_get_local_id (id : Nat) : Nat := id &&& MAX_JOB_ID

/-- `fed_mgr_get_cluster_id(id)`: `id >> FED_MGR_CLUSTER_ID_BEGIN`. -/
def fed_mgr_get_cluster_id (id : Nat) : Nat := id >>> FED_MGR_CLUSTER_ID_BEGIN

/-- C1: for every `localId < 2 ^ 26` and `clusterId < 2 ^ 6`, extracting the
local id from the composed federated job id returns `localId`, and
extracting the cluster id returns `clusterId`. -/
theorem get_job_id_roundtrip (localId clusterId : Nat)
    (hl : localId < 2 ^ 26) (hc : clusterId < 2 ^ 6) :
    fed_mgr_get_local_id (fed_mgr_get_job_id clusterId localId) = localId ∧
    fed_mgr_get_cluster_id (fed_mgr_get_job_id clusterId localId) = clusterId := by
  unfold fed_mgr_get_local_id fed_mgr_get_cluster_id fed_mgr_get_job_id
  unfold MAX_JOB_ID UINT32_MOD FED_MGR_CLUSTER_ID_BEGIN
  rw [Nat.shiftLeft_eq, Nat.shiftRight_eq_div_pow, Nat.and_pow_two_sub_one_eq_mod]
  have hb : clusterId * 2 ^ 26 ≤ 63 * 2 ^ 26 :=
    Nat.mul_le_mul_right _ (by omega)
  have h1 : clusterId * 2 ^ 26 % 2 ^ 32 = clusterId * 2 ^ 26 :=
    Nat.mod_eq_of_lt (by omega)
  have h2 : (localId + clusterId * 2 ^ 26) % 2 ^ 32 = localId + clusterId * 2 ^ 26 :=
    Nat.mod_eq_of_lt (by omega)
  rw [h1, h2]
  omega

/-- Witness for C1 at `localId = 12345`, `clusterId = 33`. -/
theorem get_job_id_roundtrip_witness :
    fed_mgr_get_local_id (fed_mgr_get_job_id 33 12345) = 12345 ∧
    fed_mgr_get_cluster_id (fed_mgr_get_job_id 33 12345) = 33 :=
  get_job_id_roundtrip 12345 33 (by norm_num) (by norm_num)

/-! ## Data model -/

/-- `fed_elem_t`: the federation element stored in a cluster record and in
the global `fed_mgr_fed_info`.  The C `name` is a `char *` that is `NULL`
when the cluster is in no federation, hence `Option String`; `id` is a
32-bit integer. -/
structure fed_elem_t where
  name : Option String
  id : Nat
deriving DecidableEq, Repr

/-- `slurmdb_cluster_rec_t`, restricted to the fields `fed_mgr.c` reads or
writes: cluster name, control host/port, federation element, and the
connection handle `sockfd` (`-1` means "not connected").  `control_host`
is `Option String` because the code distinguishes `NULL` from the empty
string.  The per-record mutex serializes access in C and has no pure
counterpart. -/
structure slurmdb_cluster_rec_t where
  name : String
  control_host : Option String
  control_port : Nat
  fed : fed_elem_t
  sockfd : Int
deriving DecidableEq, Repr

/-- Case folding of a C string as `strcasecmp` sees it: each character
lowered individually. -/
def strLower (s : String) : List Char :=
  s.data.map Char.toLower

/-- Model of `!xstrcasecmp(s, t)` where `t` may be `NULL` (never equal to a
non-`NULL` string): case-insensitive name equality. -/
def xstrcasecmp_eq (s : String) (t : Option String) : Bool :=
  match t with
  | some u => strLower s == strLower u
  | none => false

/-- Model of `!xstrcmp(s, t)` where `t` may be `NULL`: case-sensitive name
equality. -/
def xstrcmp_eq (s : String) (t : Option String) : Bool :=
  match t with
  | some u => s == u
  | none => false

/-! ## Sibling connection pool -/

/-- `_open_controller_conn(conn)`: under the record's lock, if
`control_host` is non-`NULL` but empty the handle is set to `-1`;
otherwise the remote is dialed with `slurm_open_persist_controller_conn`
(an external capability, embedded as the `dial` argument returning the new
socket, `-1` on failure) and the handle is set to the result.  The
function returns the resulting handle; no other field is touched. -/
def _open_controller_conn (dial : Option String → Nat → Int)
    (conn : slurmdb_cluster_rec_t) : slurmdb_cluster_rec_t :=
  if conn.control_host == some "" then
    { conn with sockfd := -1 }
  else
    { conn with sockfd := dial conn.control_host conn.control_port }

/-- `_close_controller_conn(conn)`: closes the socket if open and marks the
handle `-1`. -/
def _close_controller_conn (conn : slurmdb_cluster_rec_t) :
    slurmdb_cluster_rec_t :=
  { conn with sockfd := -1 }

/-- `_ping_controller(conn)`: sends a `REQUEST_PING` over the record's
connection via `_send_recv_msg` and reads the response's return code.  The
transport outcome is embedded as two arguments: `sendRecvRc`, the result of
`slurm_send_recv_msg` (nonzero means transport failure), and `respCode`,
the value `slurm_get_return_code` extracts from the response when the round
trip succeeds.  On transport failure the handle is set to `-1` and the
transport code returned; otherwise the response code is returned and the
record is left unchanged. -/
def _ping_controller (conn : slurmdb_cluster_rec_t)
    (sendRecvRc respCode : Int) : Int × slurmdb_cluster_rec_t :=
  if sendRecvRc ≠ 0 then
    (sendRecvRc, { conn with sockfd := -1 })
  else
    (respCode, conn)

/-- C6 counterexample: `_open_controller_conn` is not a no-op on a record
whose handle is already connected (`sockfd = 5 ≠ -1`); it re-dials and
overwrites the handle (here with socket 7). -/
theorem open_conn_not_noop_when_connected :
    (⟨"sib1", some "h1", 100, ⟨some "fedA", 7⟩, 5⟩ :
      slurmdb_cluster_rec_t).sockfd ≠ -1 ∧
    (_open_controller_conn (fun _ _ => 7)
      ⟨"sib1", some "h1", 100, ⟨some "fedA", 7⟩, 5⟩).sockfd ≠
    (⟨"sib1", some "h1", 100, ⟨some "fedA", 7⟩, 5⟩ :
      slurmdb_cluster_rec_t).sockfd := by
  constructor
  · decide
  · decide

/-- C6 amended: `_open_controller_conn` itself performs no self-entry or
already-connected guard (its callers do); it always dials unless the
record's control host is present and empty, in which case the handle is set
to `-1` without dialing.  On dialing failure the handle is left marked
"not connected" (`-1`); nothing but the handle changes, so no error escapes
beyond the returned handle state. -/
theorem open_conn_spec (dial : Option String → Nat → Int)
    (conn : slurmdb_cluster_rec_t) :
    (dial conn.control_host conn.control_port = -1 ∨
        conn.control_host = some "" →
      (_open_controller_conn dial conn).sockfd = -1) ∧
    (_open_controller_conn dial conn).name = conn.name ∧
    (_open_controller_conn dial conn).control_host = conn.control_host ∧
    (_open_controller_conn dial conn).control_port = conn.control_port ∧
    (_open_controller_conn dial conn).fed = conn.fed := by
  unfold _open_controller_conn
  by_cases h : conn.control_host == some ""
  · simp [h]
  · simp [h]
    intro hd
    rcases hd with hd | hd
    · exact hd
    · simp [hd] at h

/-- Witness for C6 amended: a failing dial leaves the handle `-1` and the
other fields intact. -/
theorem open_conn_spec_witness :
    (_open_controller_conn (fun _ _ => -1)
      ⟨"sib1", some "h1", 100, ⟨some "fedA", 7⟩, -1⟩).sockfd = -1 :=
  (open_conn_spec (fun _ _ => -1)
    ⟨"sib1", some "h1", 100, ⟨some "fedA", 7⟩, -1⟩).1 (Or.inl rfl)

/-- C7 counterexample: a ping whose transport round trip succeeds but whose
response carries a non-success code (`1`) returns the nonzero code yet
leaves the handle connected (`sockfd` stays `5`, not `-1`). -/
theorem ping_nonsuccess_leaves_handle_connected :
    (_ping_controller ⟨"sib1", some "h1", 100, ⟨some "fedA", 7⟩, 5⟩ 0 1).1 ≠ 0 ∧
    (_ping_controller ⟨"sib1", some "h1", 100, ⟨some "fedA", 7⟩, 5⟩ 0 1).2.sockfd = 5 := by
  constructor
  · decide
  · decide

/-- C7 amended: a transport failure of the send-receive round trip marks
the handle "not connected" and returns the nonzero transport code; a
successful round trip returns the response's return code (nonzero on a
non-success response) but leaves the record, including its connection
handle, unchanged. -/
theorem ping_controller_spec (conn : slurmdb_cluster_rec_t)
    (sendRecvRc respCode : Int) :
    (sendRecvRc ≠ 0 →
      _ping_controller conn sendRecvRc respCode =
        (sendRecvRc, { conn with sockfd := -1 })) ∧
    (sendRecvRc = 0 →
      _ping_controller conn sendRecvRc respCode = (respCode, conn)) := by
  unfold _ping_controller
  constructor
  · intro h
    simp [h]
  · intro h
    simp [h]

/-- Witness for C7 amended: a transport failure (`rc = 2`) at a concrete
record kills the handle and propagates the code. -/
theorem ping_controller_spec_witness :
    _ping_controller ⟨"sib1", some "h1", 100, ⟨some "fedA", 7⟩, 5⟩ 2 0 =
      (2, ⟨"sib1", some "h1", 100, ⟨some "fedA", 7⟩, -1⟩) :=
  (ping_controller_spec ⟨"sib1", some "h1", 100, ⟨some "fedA", 7⟩, 5⟩ 2 0).1
    (by decide)

/-! ## Pack buffers

The pack/unpack primitives (`pack16`, `pack_time`, `packstr`, ... from
`src/common/pack.c`) are missing from the repository; the buffer is
embedded at the granularity of packed units rather than raw bytes: one
token per packed integer or string. -/

/-- One packed unit: a packed integer or a packed (possibly `NULL`)
string. -/
inductive Token where
  | nat (n : Nat)
  | str (s : Option String)
deriving DecidableEq, Repr

/-- A pack buffer: the sequence of packed units. -/
abbrev Buf := List Token

/-! ## State file store (`fed_mgr_state_save`) -/

/-- The slice of the file system `fed_mgr_state_save` touches: the
canonical state file `fed_mgr_state`, the backup `fed_mgr_state.old` and
the staging `fed_mgr_state.new`, each either absent or holding a
content. -/
structure FedDir where
  reg : Option Buf
  old : Option Buf
  nw : Option Buf
deriving DecidableEq, Repr

/-- Outcome of one `write(2)` call in the save loop: either `amount ≥ 0`
units written, or a failure (`-1`) with the given `errno`. -/
inductive WriteRes where
  | ok (amount : Nat)
  | err (errno : Nat)
deriving DecidableEq, Repr

/-- Outcomes of the system calls one save invocation performs: the result
of `creat` (`some errno` on failure), the successive results of `write`,
and the result of `fsync`.  The C code calls `fsync(log_fd)` and discards
its return value, so `fsyncOk` is part of the environment but is never
examined. -/
structure SaveIO where
  creatErr : Option Nat
  writes : List WriteRes
  fsyncOk : Bool
deriving DecidableEq, Repr

/-- The save's write loop: `while (nwrite > 0) { amount = write(...); if
(amount < 0 && errno != EINTR) { error_code = errno; break; } nwrite -=
amount; pos += amount; }`.  On `EINTR` the C code falls through with
`amount = -1`, so `nwrite` grows and `pos` shrinks by one.  Returns the
final `error_code` and the staged file's content (the units actually
written), or `none` when the modeled syscall outcomes are exhausted while
the loop still runs. -/
def write_loop (buffer : Buf) :
    List WriteRes → Int → Int → Buf → Option (Int × Buf)
  | [], nwrite, _, acc =>
      if nwrite ≤ 0 then some (0, acc) else none
  | .ok n :: rest, nwrite, pos, acc =>
      if nwrite ≤ 0 then some (0, acc)
      else
        write_loop buffer rest (nwrite - n) (pos + n)
          (acc ++ ((buffer.drop pos.toNat).take n))
  | .err e :: rest, nwrite, pos, acc =>
      if nwrite ≤ 0 then some (0, acc)
      else if e = EINTR then write_loop buffer rest (nwrite + 1) (pos - 1) acc
      else some ((e : Int), acc)

/-- The success-path file shuffle: `unlink(old); link(reg, old);
unlink(reg); link(new, reg); unlink(new)`.  `link(a, b)` succeeds exactly
when `a` exists and `b` does not (failures are only logged). -/
def fileShuffle (fs : FedDir) : FedDir :=
  let fs1 : FedDir := { fs with old := none }
  let fs2 : FedDir :=
    match fs1.reg with
    | some c => { fs1 with old := some c }
    | none => fs1
  let fs3 : FedDir := { fs2 with reg := none }
  let fs4 : FedDir :=
    match fs3.nw with
    | some c => { fs3 with reg := some c }
    | none => fs3
  { fs4 with nw := none }

/-- `fed_mgr_state_save`, from the point where the pack buffer is built:
`creat` the `.new` file (on failure, record `errno`), run the write loop,
call `fsync` and `close` (both results discarded), then either unlink the
`.new` file (when `error_code` is set) or perform the file shuffle.
Returns the final `error_code` and directory state. -/
def fed_mgr_state_save (buffer : Buf) (io : SaveIO) (fs : FedDir) :
    Option (Int × FedDir) :=
  match io.creatErr with
  | some e => some ((e : Int), { fs with nw := none })
  | none =>
      match write_loop buffer io.writes (buffer.length : Int) 0 [] with
      | none => none
      | some (ec, content) =>
          if ec ≠ 0 then some (ec, { fs with nw := none })
          else some (0, fileShuffle { fs with nw := some content })

/-- C2 counterexample: a save in which every `write` succeeds but `fsync`
fails (`fsyncOk = false`) returns 0 (not a nonzero error code) and still
performs the link/unlink shuffle, replacing the canonical file's content
(`[.nat 1]` becomes `[.nat 2]`). -/
theorem save_fsync_failure_not_detected :
    fed_mgr_state_save [Token.nat 2]
      ⟨none, [WriteRes.ok 1], false⟩ ⟨some [Token.nat 1], none, none⟩ =
      some (0, ⟨some [Token.nat 2], some [Token.nat 1], none⟩) ∧
    (⟨some [Token.nat 1], none, none⟩ : FedDir).reg ≠ some [Token.nat 2] := by
  constructor
  · rfl
  · decide

/-- Total units reported written by a list of `write` outcomes. -/
def okAmounts : List WriteRes → Nat
  | [] => 0
  | .ok n :: rest => n + okAmounts rest
  | .err _ :: rest => okAmounts rest

/-- If the write loop hits a `write` failure with a non-`EINTR` `errno`
before the buffer is exhausted, it stops with that `errno` as the error
code.  The `hpre` hypothesis says every earlier outcome was a successful
write; `hleft` says those writes did not yet cover `nwrite` units. -/
theorem write_loop_first_err (buffer : Buf) (pre : List WriteRes)
    (e : Nat) (rest : List WriteRes) :
    ∀ (nwrite pos : Int) (acc : Buf),
    (∀ w ∈ pre, ∃ n, w = WriteRes.ok n) →
    e ≠ EINTR →
    (okAmounts pre : Int) < nwrite →
    ∃ acc2, write_loop buffer (pre ++ WriteRes.err e :: rest) nwrite pos acc =
      some ((e : Int), acc2) := by
  induction pre with
  | nil =>
      intro nwrite pos acc _ he hleft
      simp only [okAmounts, Nat.cast_zero] at hleft
      simp only [List.nil_append, write_loop, if_neg (by omega : ¬nwrite ≤ 0),
        if_neg he]
      exact ⟨acc, rfl⟩
  | cons w pre ih =>
      intro nwrite pos acc hpre he hleft
      obtain ⟨n, rfl⟩ := hpre w (List.mem_cons_self w pre)
      simp only [okAmounts, Nat.cast_add] at hleft
      simp only [List.cons_append, write_loop, if_neg (by omega : ¬nwrite ≤ 0)]
      exact ih (nwrite - n) (pos + n)
        (acc ++ ((buffer.drop pos.toNat).take n))
        (fun w hw => hpre w (List.mem_cons_of_mem _ hw)) he (by omega)

/-- C2 amended: a failure of `creat` or of any `write` on the staging
`.new` file makes the save return a nonzero error code, unlink the `.new`
file and leave the canonical file and the backup byte-identical (no
link/unlink shuffle); an `fsync` failure, however, is not examined by the
code and does not abort the save. -/
theorem save_error_frame (buffer : Buf) (io : SaveIO) (fs : FedDir) :
    (∀ ec fs2, fed_mgr_state_save buffer io fs = some (ec, fs2) → ec ≠ 0 →
      fs2.reg = fs.reg ∧ fs2.old = fs.old ∧ fs2.nw = none) ∧
    (∀ e, io.creatErr = some e → e ≠ 0 →
      ∃ fs2, fed_mgr_state_save buffer io fs = some ((e : Int), fs2)) ∧
    (∀ pre e rest, io.creatErr = none →
      io.writes = pre ++ WriteRes.err e :: rest →
      (∀ w ∈ pre, ∃ n, w = WriteRes.ok n) →
      e ≠ EINTR → okAmounts pre < buffer.length →
      ∃ fs2, fed_mgr_state_save buffer io fs = some ((e : Int), fs2)) := by
  refine ⟨?_, ?_, ?_⟩
  · intro ec fs2 hsave hec
    cases hcr : io.creatErr with
    | some e =>
        simp only [fed_mgr_state_save, hcr, Option.some.injEq,
          Prod.mk.injEq] at hsave
        obtain ⟨_, rfl⟩ := hsave
        exact ⟨rfl, rfl, rfl⟩
    | none =>
        simp only [fed_mgr_state_save, hcr] at hsave
        cases hwl : write_loop buffer io.writes (buffer.length : Int) 0 []
          with
        | none => rw [hwl] at hsave; exact absurd hsave (by simp)
        | some p =>
            obtain ⟨ec1, content⟩ := p
            rw [hwl] at hsave
            by_cases hz : ec1 = 0
            · subst hz
              simp only [ne_eq, not_true_eq_false, if_neg, ite_false,
                not_false_eq_true, Option.some.injEq, Prod.mk.injEq,
                reduceIte] at hsave
              obtain ⟨h0, _⟩ := hsave
              exact absurd h0.symm hec
            · simp only [ne_eq, hz, not_false_eq_true, if_true, ite_true,
                Option.some.injEq, Prod.mk.injEq, reduceIte] at hsave
              obtain ⟨_, rfl⟩ := hsave
              exact ⟨rfl, rfl, rfl⟩
  · intro e hcr _
    simp only [fed_mgr_state_save, hcr]
    exact ⟨_, rfl⟩
  · intro pre e rest hcr hws hpre he hleft
    obtain ⟨acc2, hloop⟩ := write_loop_first_err buffer pre e rest
      (buffer.length : Int) 0 [] hpre he (by omega)
    rw [← hws] at hloop
    simp only [fed_mgr_state_save, hcr, hloop]
    by_cases hz : (e : Int) = 0
    · simp only [ne_eq, hz, not_true_eq_false, reduceIte, ite_false]
      exact ⟨_, rfl⟩
    · simp only [ne_eq, hz, not_false_eq_true, reduceIte, ite_true]
      exact ⟨_, rfl⟩

/-- Witness for C2 amended: a concrete save whose single `write` fails with
`errno = 28` (disk full) returns 28 and leaves the canonical file intact
with the `.new` file removed. -/
theorem save_error_frame_witness :
    ∃ fs2,
      fed_mgr_state_save [Token.nat 2] ⟨none, [WriteRes.err 28], true⟩
        ⟨some [Token.nat 1], none, none⟩ = some (((28 : Nat) : Int), fs2) ∧
      fs2.reg = some [Token.nat 1] ∧ fs2.old = none ∧ fs2.nw = none := by
  obtain ⟨fs2, h⟩ :=
    (save_error_frame [Token.nat 2] ⟨none, [WriteRes.err 28], true⟩
      ⟨some [Token.nat 1], none, none⟩).2.2 [] 28 [] rfl rfl
      (by intro w hw; exact absurd hw (by simp)) (by decide) (by decide)
  refine ⟨fs2, h, ?_⟩
  exact (save_error_frame [Token.nat 2] ⟨none, [WriteRes.err 28], true⟩
    ⟨some [Token.nat 1], none, none⟩).1 ((28 : Nat) : Int) fs2 h (by decide)

/-! ## Federation membership state machine

The process-wide mutable globals of `fed_mgr.c` (`fed_mgr_cluster_name`,
`fed_mgr_fed_info`, `fed_mgr_siblings`, `ping_thread`, `fed_mgr_inited`)
are embedded as one explicit state record threaded through the
operations.  `pingThread` is true while the ping thread is running
(`pthread_create` succeeded and the thread has not been cancelled). -/

/-- The global state of `fed_mgr.c`. -/
structure FedState where
  cluster_name : Option String
  fed_info : fed_elem_t
  siblings : Option (List slurmdb_cluster_rec_t)
  inited : Bool
  pingThread : Bool
deriving DecidableEq, Repr

/-- `slurmdb_federation_rec_t` as returned by `fed_mgr_get_fed_info`:
federation name and cluster list, either of which may be `NULL`. -/
structure slurmdb_federation_rec_t where
  name : Option String
  cluster_list : Option (List slurmdb_cluster_rec_t)
deriving DecidableEq, Repr

/-- One federation definition inside a membership-update event
(`slurmdb_federation_rec_t` coming from the accounting collaborator):
`fed_mgr_update_feds` iterates `fed->cluster_list` directly, so the event
carries a non-`NULL` list. -/
structure fed_update_rec_t where
  name : String
  cluster_list : List slurmdb_cluster_rec_t
deriving DecidableEq, Repr

/-- `fed_mgr_init()`: idempotent; on first call it starts the ping thread,
marks the manager initialized and fills `fed_mgr_cluster_name` from
configuration (the `cfg` argument embeds `slurm_get_cluster_name()`) if it
is still `NULL`. -/
def fed_mgr_init (cfg : String) (st : FedState) : FedState :=
  if st.inited then st
  else
    { st with
      inited := true
      pingThread := true
      cluster_name := some (st.cluster_name.getD cfg) }

/-- `fed_mgr_fini(locked)`: closes all sibling connections, cancels the
ping thread, frees the cluster name and federation identity and discards
the sibling list, resetting the manager to its pristine state. -/
def fed_mgr_fini (_st : FedState) : FedState :=
  { cluster_name := none
    fed_info := { name := none, id := 0 }
    siblings := none
    inited := false
    pingThread := false }

/-- `fed_mgr_is_active()`: true exactly when the federation identity's
name is non-`NULL`. -/
def fed_mgr_is_active (st : FedState) : Bool :=
  st.fed_info.name.isSome

/-- `fed_mgr_get_fed_info()`: a read-locked copy of the identity name and
the sibling list. -/
def fed_mgr_get_fed_info (st : FedState) : slurmdb_federation_rec_t :=
  { name := st.fed_info.name, cluster_list := st.siblings }

/-- The scan of `fed_mgr_update_feds`: the first federation whose member
list contains a cluster whose name matches the local cluster name
(`xstrcasecmp`), together with that first matching member. -/
def find_first_match (localName : Option String) :
    List fed_update_rec_t →
    Option (fed_update_rec_t × slurmdb_cluster_rec_t)
  | [] => none
  | f :: rest =>
      match f.cluster_list.find? (fun c => xstrcasecmp_eq c.name localName)
        with
      | some c => some (f, c)
      | none => find_first_match localName rest

/-- The roster rebuild of `fed_mgr_update_feds`: every member of the
matched federation is copied into a fresh record (connection handle
initially "not connected"), and `_open_controller_conn` is called for
every member whose name differs (`xstrcmp`) from the local cluster
name. -/
def build_siblings (localName : Option String)
    (dial : Option String → Nat → Int)
    (cs : List slurmdb_cluster_rec_t) : List slurmdb_cluster_rec_t :=
  cs.map (fun cl =>
    let conn : slurmdb_cluster_rec_t := { cl with sockfd := -1 }
    if xstrcmp_eq cl.name localName then conn
    else _open_controller_conn dial conn)

/-- `fed_mgr_update_feds(update)`: if the event's object list is `NULL`,
return success immediately.  Otherwise run `fed_mgr_init`, scan the
federations for the first one whose member list contains the local
cluster; on a match adopt that member's federation element as the
identity and rebuild the sibling list wholesale (closing and discarding
the old connections); if no federation contains the local cluster and the
cluster was federated, leave the federation via `fed_mgr_fini`.  Always
returns `SLURM_SUCCESS`. -/
def fed_mgr_update_feds (cfg : String) (dial : Option String → Nat → Int)
    (objects : Option (List fed_update_rec_t)) (st : FedState) :
    Int × FedState :=
  match objects with
  | none => (SLURM_SUCCESS, st)
  | some feds =>
      let st1 := fed_mgr_init cfg st
      match find_first_match st1.cluster_name feds with
      | some (f, c) =>
          (SLURM_SUCCESS,
            { st1 with
              fed_info := c.fed
              siblings :=
                some (build_siblings st1.cluster_name dial f.cluster_list) })
      | none =>
          if st1.fed_info.name.isSome then
            (SLURM_SUCCESS, fed_mgr_fini st1)
          else (SLURM_SUCCESS, st1)

/-- `fed_mgr_init` never changes the federation identity. -/
theorem fed_mgr_init_fed_info (cfg : String) (st : FedState) :
    (fed_mgr_init cfg st).fed_info = st.fed_info := by
  unfold fed_mgr_init
  split
  · rfl
  · rfl

/-- If no federation of the event matches the local cluster name, the scan
comes up empty. -/
theorem find_first_match_none (localName : Option String)
    (feds : List fed_update_rec_t)
    (h : ∀ f ∈ feds, ∀ c ∈ f.cluster_list,
      xstrcasecmp_eq c.name localName = false) :
    find_first_match localName feds = none := by
  induction feds with
  | nil => rfl
  | cons f rest ih =>
      unfold find_first_match
      have hf : f.cluster_list.find?
          (fun c => xstrcasecmp_eq c.name localName) = none := by
        rw [List.find?_eq_none]
        intro c hc
        simp [h f (List.mem_cons_self f rest) c hc]
      rw [hf]
      exact ih (fun g hg c hc => h g (List.mem_cons_of_mem f hg) c hc)

/-- C5: a membership-update event carrying a non-empty batch in which no
federation's member list contains the local cluster name, received while
Federated, transitions the state machine to Unfederated: `fed_mgr_fini`
runs, `fed_mgr_is_active` becomes false and `fed_mgr_get_fed_info`
returns an empty identity and roster. -/
theorem update_feds_no_membership_leaves (cfg : String)
    (dial : Option String → Nat → Int) (feds : List fed_update_rec_t)
    (st : FedState)
    (hne : feds ≠ [])
    (hprev : st.fed_info.name.isSome)
    (hnomatch : ∀ f ∈ feds, ∀ c ∈ f.cluster_list,
      xstrcasecmp_eq c.name (fed_mgr_init cfg st).cluster_name = false) :
    fed_mgr_update_feds cfg dial (some feds) st =
      (SLURM_SUCCESS, fed_mgr_fini (fed_mgr_init cfg st)) ∧
    fed_mgr_is_active (fed_mgr_update_feds cfg dial (some feds) st).2 =
      false ∧
    fed_mgr_get_fed_info (fed_mgr_update_feds cfg dial (some feds) st).2 =
      { name := none, cluster_list := none } := by
  have hscan := find_first_match_none (fed_mgr_init cfg st).cluster_name
    feds hnomatch
  have hupd : fed_mgr_update_feds cfg dial (some feds) st =
      (SLURM_SUCCESS, fed_mgr_fini (fed_mgr_init cfg st)) := by
    simp only [fed_mgr_update_feds]
    rw [hscan]
    rw [if_pos (by rw [fed_mgr_init_fed_info]; exact hprev)]
  refine ⟨hupd, ?_, ?_⟩
  · rw [hupd]
    rfl
  · rw [hupd]
    rfl

/-- Witness for C5: a federated state receives an update listing one
federation that does not contain the local cluster, and leaves. -/
theorem update_feds_no_membership_leaves_witness :
    fed_mgr_update_feds "local" (fun _ _ => -1)
      (some [⟨"fedB", [⟨"other", some "oh", 200, ⟨some "fedB", 9⟩, -1⟩]⟩])
      ⟨some "local", ⟨some "fedA", 7⟩,
        some [⟨"local", some "lh", 100, ⟨some "fedA", 7⟩, -1⟩], true, true⟩ =
      (SLURM_SUCCESS,
        fed_mgr_fini (fed_mgr_init "local"
          ⟨some "local", ⟨some "fedA", 7⟩,
            some [⟨"local", some "lh", 100, ⟨some "fedA", 7⟩, -1⟩],
            true, true⟩)) :=
  (update_feds_no_membership_leaves "local" (fun _ _ => -1)
    [⟨"fedB", [⟨"other", some "oh", 200, ⟨some "fedB", 9⟩, -1⟩]⟩]
    ⟨some "local", ⟨some "fedA", 7⟩,
      some [⟨"local", some "lh", 100, ⟨some "fedA", 7⟩, -1⟩], true, true⟩
    (by decide) (by decide) (by decide)).1

/-- C10: a membership-update event whose object list is absent (`NULL`)
makes `fed_mgr_update_feds` return success immediately and leaves the
whole in-memory state — identity, sibling list and their connection
handles, initialization flag and ping thread — exactly as it was. -/
theorem update_feds_null_objects_noop (cfg : String)
    (dial : Option String → Nat → Int) (st : FedState) :
    fed_mgr_update_feds cfg dial none st = (SLURM_SUCCESS, st) := rfl

/-! ## Durable state codec

Modelled from the spec: the pack/unpack primitives and
`slurmdbd_pack_list_msg`/`slurmdbd_unpack_list_msg` live in
`src/common/pack.c` and `src/common/slurmdbd_defs.c`, which are missing
from the repository.  The spec fixes the record layout: `u16 version |
time_t saved_at | serialized_sibling_list`; a `NULL` list packs as the
sentinel count `NO_VAL`, a present list as its length followed by its
records' fields (name, control host, control port, federation element). -/

/-- `NO_VAL`, the 32-bit sentinel for a `NULL` list. -/
def NO_VAL : Nat := 2 ^ 32 - 1

/-- Modelled from the spec: `pack16` from the missing `pack.c`; truncates
to 16 bits. -/
def pack16 (v : Nat) : Buf := [Token.nat (v % 2 ^ 16)]

/-- Modelled from the spec: `pack32` from the missing `pack.c`; truncates
to 32 bits. -/
def pack32 (v : Nat) : Buf := [Token.nat (v % 2 ^ 32)]

/-- Modelled from the spec: `pack_time` from the missing `pack.c`. -/
def pack_time (t : Nat) : Buf := [Token.nat t]

/-- Modelled from the spec: `packstr` from the missing `pack.c`; a `NULL`
string is representable. -/
def packstr (s : Option String) : Buf := [Token.str s]

/-- Modelled from the spec: `safe_unpack16`; fails on an exhausted or
ill-typed buffer. -/
def unpack16 : Buf → Option (Nat × Buf)
  | Token.nat v :: r => some (v, r)
  | _ => none

/-- Modelled from the spec: `safe_unpack_time`. -/
def unpack_time : Buf → Option (Nat × Buf)
  | Token.nat v :: r => some (v, r)
  | _ => none

/-- Modelled from the spec: packing of one `slurmdb_cluster_rec_t` by
`slurmdb_pack_cluster_rec` (missing `slurmdb_pack.c`), restricted to the
fields this subsystem uses.  The connection handle is runtime state and is
not persisted. -/
def pack_cluster_rec (c : slurmdb_cluster_rec_t) : Buf :=
  packstr (some c.name) ++ packstr c.control_host ++
    pack32 c.control_port ++ pack32 c.fed.id ++ packstr c.fed.name

/-- Modelled from the spec: the inverse of `pack_cluster_rec`; a freshly
unpacked record's handle is "not connected". -/
def unpack_cluster_rec : Buf → Option (slurmdb_cluster_rec_t × Buf)
  | Token.str (some nm) :: Token.str h :: Token.nat p :: Token.nat fid ::
      Token.str fn :: r =>
      some (⟨nm, h, p, ⟨fn, fid⟩, -1⟩, r)
  | _ => none

/-- Modelled from the spec: unpacking of `count` consecutive cluster
records. -/
def unpack_cluster_list_n :
    Nat → Buf → Option (List slurmdb_cluster_rec_t × Buf)
  | 0, r => some ([], r)
  | n + 1, r =>
      match unpack_cluster_rec r with
      | none => none
      | some (c, r2) =>
          match unpack_cluster_list_n n r2 with
          | none => none
          | some (cs, r3) => some (c :: cs, r3)

/-- Modelled from the spec: `slurm_pack_list` of the sibling list inside
`slurmdbd_pack_list_msg`: a `NULL` list packs as `NO_VAL`, a present list
as its 32-bit count followed by its records. -/
def pack_cluster_list : Option (List slurmdb_cluster_rec_t) → Buf
  | none => [Token.nat NO_VAL]
  | some cs =>
      Token.nat (cs.length % 2 ^ 32) :: (cs.map pack_cluster_rec).flatten

/-- Modelled from the spec: `slurmdbd_unpack_list_msg`'s list unpacking,
inverse of `pack_cluster_list`. -/
def unpack_cluster_list :
    Buf → Option (Option (List slurmdb_cluster_rec_t) × Buf)
  | Token.nat n :: r =>
      if n = NO_VAL then some (none, r)
      else
        match unpack_cluster_list_n n r with
        | none => none
        | some (cs, r2) => some (some cs, r2)
  | _ => none

/-- The pack buffer `fed_mgr_state_save` builds before writing: `pack16`
of the current protocol version, `pack_time` of the save time, then the
packed sibling list. -/
def fed_mgr_state_save_buffer (t : Nat)
    (sibs : Option (List slurmdb_cluster_rec_t)) : Buf :=
  pack16 SLURM_PROTOCOL_VERSION ++ pack_time t ++ pack_cluster_list sibs

/-- `fed_mgr_state_load`, from the decoded file content.  `file` is the
canonical state file's content (`none` when the file does not exist, in
which case the load reports success and recovers nothing).  The version
tag is rejected outside `[SLURM_MIN_PROTOCOL_VERSION,
SLURM_PROTOCOL_VERSION]` with `EFAULT` before any state is touched.  On a
successful list decode the in-memory sibling list is replaced by the
loaded one (the old list is freed), the cluster name is defaulted from
configuration if unset, and the self-entry is located by name
(`slurmdb_find_cluster_in_list`, modelled from the spec as a match on the
cluster name): if it is absent the load fails with `SLURM_ERROR` (leaving
the already-installed list in place); otherwise the self-entry's
federation element becomes the federation identity and `fed_mgr_init`
runs. -/
def fed_mgr_state_load (cfg : String) (file : Option Buf) (st : FedState) :
    Int × FedState :=
  match file with
  | none => (SLURM_SUCCESS, st)
  | some buf =>
      match unpack16 buf with
      | none => (SLURM_ERROR, st)
      | some (ver, r1) =>
          if SLURM_PROTOCOL_VERSION < ver ∨ ver < SLURM_MIN_PROTOCOL_VERSION
            then (EFAULT, st)
          else
            match unpack_time r1 with
            | none => (SLURM_ERROR, st)
            | some (_, r2) =>
                match unpack_cluster_list r2 with
                | none => (SLURM_ERROR, st)
                | some (myList, _) =>
                    let name := st.cluster_name.getD cfg
                    let st2 : FedState :=
                      { st with
                        siblings := myList
                        cluster_name := some name }
                    match myList with
                    | some l =>
                        match l.find? (fun c => xstrcmp_eq c.name (some name))
                          with
                        | none => (SLURM_ERROR, st2)
                        | some c =>
                            (SLURM_SUCCESS,
                              fed_mgr_init cfg { st2 with fed_info := c.fed })
                    | none => (SLURM_SUCCESS, fed_mgr_init cfg st2)

/-- C3: a state file whose decoded version tag lies above the current
protocol version or below the minimum supported one makes the load return
`EFAULT` and leaves the whole in-memory state — federation identity and
sibling list included — unchanged. -/
theorem load_version_mismatch (cfg : String) (buf : Buf) (st : FedState)
    (ver : Nat) (r1 : Buf)
    (hunp : unpack16 buf = some (ver, r1))
    (hver : SLURM_PROTOCOL_VERSION < ver ∨ ver < SLURM_MIN_PROTOCOL_VERSION) :
    fed_mgr_state_load cfg (some buf) st = (EFAULT, st) := by
  simp only [fed_mgr_state_load, hunp]
  rw [if_pos hver]

/-- Witness for C3: a file carrying version 9000 (above the current 8192)
is rejected with `EFAULT` and the state is untouched. -/
theorem load_version_mismatch_witness :
    fed_mgr_state_load "local" (some [Token.nat 9000])
      ⟨some "local", ⟨some "fedA", 7⟩, none, true, true⟩ =
      (EFAULT, ⟨some "local", ⟨some "fedA", 7⟩, none, true, true⟩) :=
  load_version_mismatch "local" [Token.nat 9000]
    ⟨some "local", ⟨some "fedA", 7⟩, none, true, true⟩ 9000 [] rfl
    (by decide)

/-- C4: a state file that decodes successfully but whose sibling list has
no entry named with the locally configured cluster name makes the load
return `SLURM_ERROR`, not a silent success. -/
theorem load_missing_self_errors (cfg : String) (st : FedState) (buf : Buf)
    (ver t : Nat) (l : List slurmdb_cluster_rec_t) (r1 r2 r3 : Buf)
    (h1 : unpack16 buf = some (ver, r1))
    (hver : SLURM_MIN_PROTOCOL_VERSION ≤ ver ∧ ver ≤ SLURM_PROTOCOL_VERSION)
    (h2 : unpack_time r1 = some (t, r2))
    (h3 : unpack_cluster_list r2 = some (some l, r3))
    (hnone : l.find?
      (fun c => xstrcmp_eq c.name (some (st.cluster_name.getD cfg))) = none) :
    (fed_mgr_state_load cfg (some buf) st).1 = SLURM_ERROR := by
  simp only [fed_mgr_state_load, h1, h2, h3]
  rw [if_neg (by omega)]
  simp only [hnone]

/-- Witness for C4: a decoded list holding only "other" fails the load on
a cluster locally named "local". -/
theorem load_missing_self_errors_witness :
    (fed_mgr_state_load "local"
      (some (fed_mgr_state_save_buffer 5
        (some [⟨"other", some "oh", 200, ⟨some "fedB", 9⟩, -1⟩])))
      ⟨some "local", ⟨none, 0⟩, none, false, false⟩).1 = SLURM_ERROR :=
  load_missing_self_errors "local"
    ⟨some "local", ⟨none, 0⟩, none, false, false⟩ _
    SLURM_PROTOCOL_VERSION 5
    [⟨"other", some "oh", 200, ⟨some "fedB", 9⟩, (-1 : Int)⟩]
    _ _ [] rfl (by decide) rfl (by decide) (by decide)

/-- C9: when the load fails because the locally configured cluster name is
absent from the decoded sibling list, the in-memory sibling list has
already been replaced by the loaded list: the error result carries the
mutated state (loaded siblings installed, cluster name defaulted), not the
previous roster. -/
theorem load_missing_self_not_atomic (cfg : String) (st : FedState)
    (buf : Buf) (ver t : Nat) (l : List slurmdb_cluster_rec_t)
    (r1 r2 r3 : Buf)
    (h1 : unpack16 buf = some (ver, r1))
    (hver : SLURM_MIN_PROTOCOL_VERSION ≤ ver ∧ ver ≤ SLURM_PROTOCOL_VERSION)
    (h2 : unpack_time r1 = some (t, r2))
    (h3 : unpack_cluster_list r2 = some (some l, r3))
    (hnone : l.find?
      (fun c => xstrcmp_eq c.name (some (st.cluster_name.getD cfg))) = none) :
    fed_mgr_state_load cfg (some buf) st =
      (SLURM_ERROR,
        { st with
          siblings := some l
          cluster_name := some (st.cluster_name.getD cfg) }) := by
  simp only [fed_mgr_state_load, h1, h2, h3]
  rw [if_neg (by omega)]
  simp only [hnone]

/-- Witness for C9: a federated state with sibling "oldsib" loads a file
listing only "other"; the load errors yet the installed roster is the
loaded one, the old roster gone. -/
theorem load_missing_self_not_atomic_witness :
    fed_mgr_state_load "local"
      (some (fed_mgr_state_save_buffer 5
        (some [⟨"other", some "oh", 200, ⟨some "fedB", 9⟩, -1⟩])))
      ⟨some "local", ⟨some "fedA", 7⟩,
        some [⟨"oldsib", some "xh", 300, ⟨some "fedA", 7⟩, -1⟩],
        true, true⟩ =
      (SLURM_ERROR,
        ⟨some "local", ⟨some "fedA", 7⟩,
          some [⟨"other", some "oh", 200, ⟨some "fedB", 9⟩, -1⟩],
          true, true⟩) :=
  load_missing_self_not_atomic "local"
    ⟨some "local", ⟨some "fedA", 7⟩,
      some [⟨"oldsib", some "xh", 300, ⟨some "fedA", 7⟩, -1⟩], true, true⟩
    _ SLURM_PROTOCOL_VERSION 5
    [⟨"other", some "oh", 200, ⟨some "fedB", 9⟩, (-1 : Int)⟩]
    _ _ [] rfl (by decide) rfl (by decide) (by decide)

/-! ## Save-then-load round trip -/

/-- The record a saved cluster comes back as: identical except for the
connection handle, which is freshly "not connected". -/
def loadedOf (c : slurmdb_cluster_rec_t) : slurmdb_cluster_rec_t :=
  { c with sockfd := -1 }

/-- A cluster record whose 32-bit fields fit their wire width. -/
def wf_cluster (c : slurmdb_cluster_rec_t) : Prop :=
  c.control_port < 2 ^ 32 ∧ c.fed.id < 2 ^ 32

instance (c : slurmdb_cluster_rec_t) : Decidable (wf_cluster c) := by
  unfold wf_cluster
  infer_instance

/-- Unpacking inverts packing of one cluster record. -/
theorem unpack_pack_cluster_rec (c : slurmdb_cluster_rec_t) (r : Buf)
    (hp : c.control_port < 2 ^ 32) (hid : c.fed.id < 2 ^ 32) :
    unpack_cluster_rec (pack_cluster_rec c ++ r) = some (loadedOf c, r) := by
  simp only [pack_cluster_rec, packstr, pack32, List.cons_append,
    List.nil_append, List.append_assoc]
  simp only [unpack_cluster_rec]
  rw [Nat.mod_eq_of_lt hp, Nat.mod_eq_of_lt hid]
  rfl

/-- Unpacking inverts packing of a list of cluster records. -/
theorem unpack_pack_cluster_list_n (cs : List slurmdb_cluster_rec_t)
    (r : Buf) (hwf : ∀ c ∈ cs, wf_cluster c) :
    unpack_cluster_list_n cs.length ((cs.map pack_cluster_rec).flatten ++ r)
      = some (cs.map loadedOf, r) := by
  induction cs with
  | nil => rfl
  | cons c cs ih =>
      obtain ⟨hp, hid⟩ := hwf c (List.mem_cons_self c cs)
      simp only [List.map_cons, List.flatten_cons, List.length_cons,
        List.append_assoc]
      simp only [unpack_cluster_list_n, unpack_pack_cluster_rec c _ hp hid,
        ih (fun d hd => hwf d (List.mem_cons_of_mem c hd))]

/-- Unpacking inverts packing of the (present) sibling list. -/
theorem unpack_pack_cluster_list (cs : List slurmdb_cluster_rec_t) (r : Buf)
    (hwf : ∀ c ∈ cs, wf_cluster c) (hlen : cs.length < NO_VAL) :
    unpack_cluster_list (pack_cluster_list (some cs) ++ r)
      = some (some (cs.map loadedOf), r) := by
  have hlt : cs.length < 2 ^ 32 := by unfold NO_VAL at hlen; omega
  simp only [pack_cluster_list, List.cons_append]
  simp only [unpack_cluster_list]
  rw [Nat.mod_eq_of_lt hlt]
  rw [if_neg (by unfold NO_VAL at hlen ⊢; omega)]
  rw [unpack_pack_cluster_list_n cs r hwf]

/-- A save whose `creat` and single full `write` succeed installs the pack
buffer as the canonical file via the shuffle. -/
theorem fed_mgr_state_save_clean (buffer : Buf) (fs : FedDir) (b : Bool)
    (h : buffer ≠ []) :
    fed_mgr_state_save buffer ⟨none, [WriteRes.ok buffer.length], b⟩ fs =
      some (0, fileShuffle { fs with nw := some buffer }) := by
  have hpos : 0 < buffer.length := List.length_pos.mpr h
  have hwl : write_loop buffer [WriteRes.ok buffer.length]
      (buffer.length : Int) 0 [] = some (0, buffer) := by
    simp only [write_loop]
    rw [if_neg (by omega)]
    rw [if_pos (by omega)]
    simp [List.take_length]
  simp only [fed_mgr_state_save, hwl]
  rfl

/-- The shuffle makes the staged content canonical. -/
theorem fileShuffle_reg (fs : FedDir) (content : Buf) :
    (fileShuffle { fs with nw := some content }).reg = some content := by
  rcases fs with ⟨reg, old, nw⟩
  cases reg <;> rfl

/-- `fed_mgr_init` never changes the sibling list. -/
theorem fed_mgr_init_siblings (cfg : String) (st : FedState) :
    (fed_mgr_init cfg st).siblings = st.siblings := by
  unfold fed_mgr_init
  split
  · rfl
  · rfl

/-- C8 amended: saving the in-memory sibling list `L` (self-entry
included) and loading the resulting file into a restarted state
reproduces the same list of sibling cluster names, control hosts and
control ports, and installs as federation identity the federation element
of the self-entry found by the local cluster name; therefore the identity
F of the saving state is reproduced whenever it equals the self-entry's
federation element (the identity itself is never written to the file). -/
theorem save_load_roundtrip (cfg : String) (st1 st2 : FedState)
    (L : List slurmdb_cluster_rec_t) (selfc : slurmdb_cluster_rec_t)
    (t : Nat) (fs : FedDir) (b : Bool)
    (hsib : st1.siblings = some L)
    (hwf : ∀ c ∈ L, wf_cluster c)
    (hlen : L.length < NO_VAL)
    (hself : L.find?
      (fun c => xstrcmp_eq c.name (some (st2.cluster_name.getD cfg)))
      = some selfc) :
    ∃ fs2 st3,
      fed_mgr_state_save (fed_mgr_state_save_buffer t st1.siblings)
        ⟨none,
          [WriteRes.ok (fed_mgr_state_save_buffer t st1.siblings).length],
          b⟩ fs = some (0, fs2) ∧
      fs2.reg = some (fed_mgr_state_save_buffer t st1.siblings) ∧
      fed_mgr_state_load cfg fs2.reg st2 = (SLURM_SUCCESS, st3) ∧
      st3.siblings = some (L.map loadedOf) ∧
      (L.map loadedOf).map
          (fun c => (c.name, c.control_host, c.control_port)) =
        L.map (fun c => (c.name, c.control_host, c.control_port)) ∧
      st3.fed_info = selfc.fed ∧
      (st1.fed_info = selfc.fed → st3.fed_info = st1.fed_info) := by
  rw [hsib]
  have hbuf : fed_mgr_state_save_buffer t (some L) =
      Token.nat SLURM_PROTOCOL_VERSION :: Token.nat t ::
        pack_cluster_list (some L) := by
    simp [fed_mgr_state_save_buffer, pack16, pack_time,
      SLURM_PROTOCOL_VERSION]
  have hne : fed_mgr_state_save_buffer t (some L) ≠ [] := by
    rw [hbuf]
    exact List.cons_ne_nil _ _
  refine ⟨fileShuffle
      { fs with nw := some (fed_mgr_state_save_buffer t (some L)) },
    fed_mgr_init cfg
      { st2 with
        siblings := some (L.map loadedOf)
        cluster_name := some (st2.cluster_name.getD cfg)
        fed_info := selfc.fed }, ?_, ?_, ?_, ?_, ?_, ?_, ?_⟩
  · exact fed_mgr_state_save_clean _ fs b hne
  · exact fileShuffle_reg fs _
  · rw [fileShuffle_reg fs _, hbuf]
    simp only [fed_mgr_state_load, unpack16]
    rw [if_neg (by decide)]
    simp only [unpack_time]
    rw [show pack_cluster_list (some L) = pack_cluster_list (some L) ++ []
      from (List.append_nil _).symm]
    rw [unpack_pack_cluster_list L [] hwf hlen]
    have hfind : (L.map loadedOf).find?
        (fun c => xstrcmp_eq c.name (some (st2.cluster_name.getD cfg)))
        = some (loadedOf selfc) := by
      rw [List.find?_map]
      exact congrArg (Option.map loadedOf) hself
    simp only [hfind]
    rfl
  · rw [fed_mgr_init_siblings]
  · rw [List.map_map]
    rfl
  · rw [fed_mgr_init_fed_info]
  · intro hF
    rw [fed_mgr_init_fed_info, hF]

/-- Witness for C8 amended: a one-entry roster (the self-entry "local")
saves and loads back with names/hosts/ports and identity reproduced. -/
theorem save_load_roundtrip_witness :
    ∃ fs2 st3,
      fed_mgr_state_save
        (fed_mgr_state_save_buffer 5
          (⟨some "local", ⟨some "fedA", 7⟩,
            some [⟨"local", some "lh", 100, ⟨some "fedA", 7⟩, -1⟩],
            true, true⟩ : FedState).siblings)
        ⟨none,
          [WriteRes.ok (fed_mgr_state_save_buffer 5
            (⟨some "local", ⟨some "fedA", 7⟩,
              some [⟨"local", some "lh", 100, ⟨some "fedA", 7⟩, -1⟩],
              true, true⟩ : FedState).siblings).length],
          true⟩ ⟨none, none, none⟩ = some (0, fs2) ∧
      fs2.reg = some (fed_mgr_state_save_buffer 5
        (⟨some "local", ⟨some "fedA", 7⟩,
          some [⟨"local", some "lh", 100, ⟨some "fedA", 7⟩, -1⟩],
          true, true⟩ : FedState).siblings) ∧
      fed_mgr_state_load "local" fs2.reg
        ⟨some "local", ⟨none, 0⟩, none, false, false⟩ =
        (SLURM_SUCCESS, st3) ∧
      st3.siblings = some
        ([⟨"local", some "lh", 100, ⟨some "fedA", 7⟩, -1⟩].map loadedOf) ∧
      ([(⟨"local", some "lh", 100, ⟨some "fedA", 7⟩, -1⟩ :
          slurmdb_cluster_rec_t)].map loadedOf).map
          (fun c => (c.name, c.control_host, c.control_port)) =
        [(⟨"local", some "lh", 100, ⟨some "fedA", 7⟩, -1⟩ :
          slurmdb_cluster_rec_t)].map
          (fun c => (c.name, c.control_host, c.control_port)) ∧
      st3.fed_info =
        (⟨"local", some "lh", 100, ⟨some "fedA", 7⟩, -1⟩ :
          slurmdb_cluster_rec_t).fed ∧
      ((⟨some "local", ⟨some "fedA", 7⟩,
          some [⟨"local", some "lh", 100, ⟨some "fedA", 7⟩, -1⟩],
          true, true⟩ : FedState).fed_info =
        (⟨"local", some "lh", 100, ⟨some "fedA", 7⟩, -1⟩ :
          slurmdb_cluster_rec_t).fed →
        st3.fed_info =
          (⟨some "local", ⟨some "fedA", 7⟩,
            some [⟨"local", some "lh", 100, ⟨some "fedA", 7⟩, -1⟩],
            true, true⟩ : FedState).fed_info) :=
  save_load_roundtrip "local"
    ⟨some "local", ⟨some "fedA", 7⟩,
      some [⟨"local", some "lh", 100, ⟨some "fedA", 7⟩, -1⟩], true, true⟩
    ⟨some "local", ⟨none, 0⟩, none, false, false⟩
    [⟨"local", some "lh", 100, ⟨some "fedA", 7⟩, -1⟩]
    ⟨"local", some "lh", 100, ⟨some "fedA", 7⟩, -1⟩
    5 ⟨none, none, none⟩ true rfl (by decide) (by decide) (by decide)

/-- The saving state of the C8 counterexample: its installed identity
(`fedB`, 2) differs from the self-entry's federation element
(`fedA`, 1). -/
def c8SaveState : FedState :=
  ⟨some "local", ⟨some "fedB", 2⟩,
    some [⟨"local", some "lh", 100, ⟨some "fedA", 1⟩, -1⟩], true, true⟩

/-- The restarted state the C8 counterexample loads into. -/
def c8LoadState : FedState :=
  ⟨some "local", ⟨none, 0⟩, none, false, false⟩

/-- C8 counterexample: the save writes only the sibling list, never the
federation identity itself; loading re-derives the identity from the
self-entry's federation element.  Saving from a state whose identity
(`fedB`, id 2) differs from the self-entry's element (`fedA`, id 1) and
loading back yields identity (`fedA`, 1) ≠ (`fedB`, 2): the round trip
does not reproduce the in-memory identity for every state. -/
theorem save_load_roundtrip_identity_cex :
    (fed_mgr_state_save (fed_mgr_state_save_buffer 5 c8SaveState.siblings)
        ⟨none,
          [WriteRes.ok
            (fed_mgr_state_save_buffer 5 c8SaveState.siblings).length],
          true⟩ ⟨none, none, none⟩).map
      (fun p => (fed_mgr_state_load "local" p.2.reg c8LoadState).2.fed_info)
      = some ⟨some "fedA", 1⟩ ∧
    c8SaveState.fed_info ≠ ⟨some "fedA", 1⟩ := by
  constructor
  · rfl
  · decide

end FedMgr
